import Mathlib

/-!
Shallow embedding of `src/extract_pdf.py` (VisaNet PDF text extractor).

The script has one function, `extract_pdf_text`, and a `__main__` block.
We model the observable behaviour as a trace of events (stdout prints,
stderr prints, file writes).  The external PDF library (`pypdf`) is
modelled by an `OpenResult` value describing what `PdfReader(path)` and
the per-page `extract_text()` calls do: either they succeed with a
string, or they raise an exception carrying a message.  A "world" maps
file paths to such outcomes.
-/

/-- One observable effect of the program: a `print` to stdout, a `print`
to stderr, or a file write (name, content). -/
inductive Event where
  | out (s : String)
  | err (s : String)
  | write (name content : String)
  deriving DecidableEq

/-- Result of `page.extract_text()` for one page: a text, or an
exception with message `e`. -/
inductive PageResult where
  | text (t : String)
  | exn (e : String)
  deriving DecidableEq

/-- Result of `PdfReader(path)`: a reader whose pages behave as given,
or an exception with message `e` (missing file, corrupt PDF, ...). -/
inductive OpenResult where
  | pdf (pages : List PageResult)
  | exn (e : String)
  deriving DecidableEq

/-- The 80-character `"="*80` separator line printed between pages. -/
def eqBar : String := String.mk (List.replicate 80 '=')

/-- The `print("\n" + "="*80)` argument after each page. -/
def sepLine : String := "\n" ++ eqBar

/-- The `print(f"\n--- PAGE {page_num} ---\n")` argument. -/
def pageHeader (k : Nat) : String := "\n--- PAGE " ++ toString k ++ " ---\n"

/-- Python's `"\n\n".join(text_content)`: empty for `[]`, the single
element for a singleton, otherwise elements interleaved with `sep`. -/
def pyJoin (sep : String) : List String → String
  | [] => ""
  | [t] => t
  | t :: t' :: ts => t ++ sep ++ pyJoin sep (t' :: ts)

/-- The `for page_num, page in enumerate(reader.pages, 1)` loop body of
`extract_pdf_text` (src/extract_pdf.py lines 19-24), started at page
number `k`: prints the page header, calls `extract_text()` (which may
raise), prints the text and the separator line, and accumulates the
texts in order.  Returns the events emitted and either the collected
texts or the exception that aborted the loop. -/
def pageLoop : Nat → List PageResult → List Event × Except String (List String)
  | _, [] => ([], Except.ok [])
  | k, PageResult.text t :: rest =>
      let r := pageLoop (k + 1) rest
      (Event.out (pageHeader k) :: Event.out t :: Event.out sepLine :: r.1,
       r.2.map fun ts => t :: ts)
  | k, PageResult.exn e :: _ => ([Event.out (pageHeader k)], Except.error e)

/-- The `try:` body of `extract_pdf_text` (src/extract_pdf.py lines
12-26): open the reader (which may raise), print the page count and the
separator, run the page loop, and join the texts with `"\n\n"`. -/
def tryBody : OpenResult → List Event × Except String String
  | OpenResult.exn e => ([], Except.error e)
  | OpenResult.pdf pages =>
      let r := pageLoop 1 pages
      (Event.out ("PDF Pages: " ++ toString pages.length ++ "\n") :: Event.out eqBar :: r.1,
       r.2.map fun ts => pyJoin "\n\n" ts)

/-- `extract_pdf_text` (src/extract_pdf.py lines 10-30): run the try
body; on success return the joined text, on any exception print
`"Error extracting PDF: {e}"` to stderr and return `None`. -/
def extract_pdf_text (r : OpenResult) : List Event × Option String :=
  match (tryBody r).2 with
  | Except.ok s => ((tryBody r).1, some s)
  | Except.error e =>
      ((tryBody r).1 ++ [Event.err ("Error extracting PDF: " ++ e)], none)

/-- The hardcoded input path (src/extract_pdf.py line 33). -/
def pdf_path : String := "VISANET- user journey.pdf"

/-- The hardcoded output file name (src/extract_pdf.py line 38). -/
def outFileName : String := "VISANET_user_journey_extracted.txt"

/-- The success message printed after the file write
(src/extract_pdf.py line 40). -/
def successMsg : String :=
  "\n\n✓ Text extracted and saved to VISANET_user_journey_extracted.txt"

/-- The `__main__` block (src/extract_pdf.py lines 32-40): extract from
the hardcoded path; Python's `if text:` is false both for `None` and
for the empty string, so the file write and the success print happen
only for a non-empty result.  `args` and `env` model the command line
and environment, which the script never reads. -/
def mainBlock (world : String → OpenResult) (args : List String)
    (env : String → Option String) : List Event :=
  match (extract_pdf_text (world pdf_path)).2 with
  | some s =>
      if s = "" then (extract_pdf_text (world pdf_path)).1
      else (extract_pdf_text (world pdf_path)).1 ++
        [Event.write outFileName s, Event.out successMsg]
  | none => (extract_pdf_text (world pdf_path)).1

/-- The file writes contained in a trace, in order. -/
def fileWrites (evs : List Event) : List (String × String) :=
  evs.filterMap fun ev =>
    match ev with
    | Event.write n c => some (n, c)
    | _ => none

/-- The stderr lines contained in a trace, in order. -/
def stderrOf (evs : List Event) : List String :=
  evs.filterMap fun ev =>
    match ev with
    | Event.err s => some s
    | _ => none

/-- All printed messages (stdout and stderr) of a trace, in order. -/
def messagesOf (evs : List Event) : List Event :=
  evs.filter fun ev =>
    match ev with
    | Event.write _ _ => false
    | _ => true

/-- Whether the character list `pat` is a leading segment of `s`. -/
def beginsWith : List Char → List Char → Bool
  | [], _ => true
  | _ :: _, [] => false
  | p :: ps, c :: cs => p == c && beginsWith ps cs

/-- Whether the character list `pat` occurs contiguously inside `s`. -/
def hasSub (pat : List Char) : List Char → Bool
  | [] => beginsWith pat []
  | c :: cs => beginsWith pat (c :: cs) || hasSub pat (cs)

/-- Whether a printed message mentions the word "output" (a necessary
condition for a message stating that no output file was produced). -/
def mentionsOutput : Event → Bool
  | Event.out s => hasSub "output".data s.data
  | Event.err s => hasSub "output".data s.data
  | Event.write _ _ => true

/-- When every page extracts successfully, the loop collects exactly the
page texts, in order. -/
lemma pageLoop_snd_map_text (ts : List String) :
    ∀ k, (pageLoop k (ts.map PageResult.text)).2 = Except.ok ts := by
  induction ts with
  | nil => intro k; rfl
  | cons t rest ih =>
      intro k
      simp [pageLoop, ih (k + 1), Except.map]

/-- Every event emitted by the page loop is a stdout print. -/
lemma pageLoop_events_out (ps : List PageResult) :
    ∀ k, ∀ ev ∈ (pageLoop k ps).1, ∃ s, ev = Event.out s := by
  induction ps with
  | nil => intro k ev h; simp [pageLoop] at h
  | cons p rest ih =>
      intro k ev h
      cases p with
      | text t =>
          simp only [pageLoop, List.mem_cons] at h
          rcases h with h | h | h | h
          · exact ⟨pageHeader k, h⟩
          · exact ⟨t, h⟩
          · exact ⟨sepLine, h⟩
          · exact ih (k + 1) ev h
      | exn e =>
          simp only [pageLoop, List.mem_singleton] at h
          exact ⟨pageHeader k, h⟩

/-- Every event emitted by the try body is a stdout print. -/
lemma tryBody_events_out (r : OpenResult) :
    ∀ ev ∈ (tryBody r).1, ∃ s, ev = Event.out s := by
  cases r with
  | exn e => intro ev h; simp [tryBody] at h
  | pdf pages =>
      intro ev h
      simp only [tryBody, List.mem_cons] at h
      rcases h with h | h | h
      · exact ⟨_, h⟩
      · exact ⟨eqBar, h⟩
      · exact pageLoop_events_out pages 1 ev h

/-- A trace of stdout prints contains no file writes. -/
lemma fileWrites_of_out (evs : List Event)
    (h : ∀ ev ∈ evs, ∃ s, ev = Event.out s) : fileWrites evs = [] := by
  apply List.filterMap_eq_nil_iff.mpr
  intro ev hev
  rcases h ev hev with ⟨s, rfl⟩
  rfl

/-- A trace of stdout prints contains no stderr lines. -/
lemma stderrOf_of_out (evs : List Event)
    (h : ∀ ev ∈ evs, ∃ s, ev = Event.out s) : stderrOf evs = [] := by
  apply List.filterMap_eq_nil_iff.mpr
  intro ev hev
  rcases h ev hev with ⟨s, rfl⟩
  rfl

/-- A page list either consists entirely of successful extractions or
the loop aborts with some exception. -/
lemma pageLoop_cases (ps : List PageResult) :
    ∀ k, (∃ ts : List String, ps = ts.map PageResult.text) ∨
      ∃ e, (pageLoop k ps).2 = Except.error e := by
  induction ps with
  | nil => intro k; exact Or.inl ⟨[], rfl⟩
  | cons p rest ih =>
      intro k
      cases p with
      | text t =>
          rcases ih (k + 1) with ⟨ts, rfl⟩ | ⟨e, he⟩
          · exact Or.inl ⟨t :: ts, rfl⟩
          · refine Or.inr ⟨e, ?_⟩
            simp [pageLoop, he, Except.map]
      | exn e => exact Or.inr ⟨e, rfl⟩

/-- Events of the successful run on pages `ts`: header, separator bar,
then the page loop events. -/
lemma tryBody_pdf_eq (pages : List PageResult) :
    tryBody (OpenResult.pdf pages) =
      (Event.out ("PDF Pages: " ++ toString pages.length ++ "\n") ::
        Event.out eqBar :: (pageLoop 1 pages).1,
       (pageLoop 1 pages).2.map fun ts => pyJoin "\n\n" ts) := rfl

/-- On a fully successful page list the extraction returns the joined
texts together with the try-body events. -/
lemma extract_pdf_text_map_text (ts : List String) :
    extract_pdf_text (OpenResult.pdf (ts.map PageResult.text)) =
      ((tryBody (OpenResult.pdf (ts.map PageResult.text))).1,
        some (pyJoin "\n\n" ts)) := by
  unfold extract_pdf_text
  rw [tryBody_pdf_eq, pageLoop_snd_map_text ts 1]
  simp [Except.map]

/-- When the try body raises, extraction appends the diagnostic and
returns `none`. -/
lemma extract_pdf_text_error (r : OpenResult) (e : String)
    (h : (tryBody r).2 = Except.error e) :
    extract_pdf_text r =
      ((tryBody r).1 ++ [Event.err ("Error extracting PDF: " ++ e)], none) := by
  unfold extract_pdf_text
  rw [h]

/-- Adjacent elements of a joined list appear in the join, in order,
separated by exactly one separator. -/
lemma pyJoin_adjacent (sep : String) (ts : List String) :
    ∀ i : Nat, i + 1 < ts.length →
      ∃ a c, pyJoin sep ts =
        a ++ ts.getD i "" ++ sep ++ ts.getD (i + 1) "" ++ c := by
  induction ts with
  | nil => intro i h; simp at h
  | cons x rest ih =>
      intro i h
      cases i with
      | zero =>
          cases rest with
          | nil => simp at h
          | cons y rest' =>
              cases rest' with
              | nil =>
                  refine ⟨"", "", ?_⟩
                  simp [pyJoin, String.append_empty, String.empty_append]
              | cons z rest'' =>
                  refine ⟨"", sep ++ pyJoin sep (z :: rest''), ?_⟩
                  simp [pyJoin, String.empty_append, String.append_assoc]
      | succ j =>
          have hj : j + 1 < rest.length := by
            simpa [Nat.succ_lt_succ_iff] using h
          rcases ih j hj with ⟨a, c, heq⟩
          refine ⟨x ++ sep ++ a, c, ?_⟩
          have hne : rest ≠ [] := by
            intro hnil; rw [hnil] at hj; simp at hj
          cases rest with
          | nil => exact absurd rfl hne
          | cons y rest' =>
              simp only [pyJoin, List.getD_cons_succ, heq, String.append_assoc]

/-- Each page's text occurs as a stdout print somewhere in the page-loop
events. -/
lemma pageLoop_split (ts : List String) :
    ∀ k i, i < ts.length →
      ∃ a b, (pageLoop k (ts.map PageResult.text)).1 =
        a ++ Event.out (ts.getD i "") :: b := by
  induction ts with
  | nil => intro k i h; simp at h
  | cons t rest ih =>
      intro k i h
      cases i with
      | zero =>
          refine ⟨[Event.out (pageHeader k)],
            Event.out sepLine :: (pageLoop (k + 1) (rest.map PageResult.text)).1, ?_⟩
          simp [pageLoop]
      | succ j =>
          have hj : j < rest.length := by
            simpa [Nat.succ_lt_succ_iff] using h
          rcases ih (k + 1) j hj with ⟨a, b, heq⟩
          refine ⟨Event.out (pageHeader k) :: Event.out t :: Event.out sepLine :: a,
            b, ?_⟩
          simp [pageLoop, heq, List.getD_cons_succ]

/-- `fileWrites` distributes over trace concatenation. -/
lemma fileWrites_append (l₁ l₂ : List Event) :
    fileWrites (l₁ ++ l₂) = fileWrites l₁ ++ fileWrites l₂ :=
  List.filterMap_append l₁ l₂ _

/-- `stderrOf` distributes over trace concatenation. -/
lemma stderrOf_append (l₁ l₂ : List Event) :
    stderrOf (l₁ ++ l₂) = stderrOf l₁ ++ stderrOf l₂ :=
  List.filterMap_append l₁ l₂ _

/-- When extraction returns a non-empty text, the main block appends the
file write and the success print to the extraction trace. -/
lemma mainBlock_some (w : String → OpenResult) (args : List String)
    (env : String → Option String) (s : String) (evs : List Event)
    (h : extract_pdf_text (w pdf_path) = (evs, some s)) (hs : s ≠ "") :
    mainBlock w args env =
      evs ++ [Event.write outFileName s, Event.out successMsg] := by
  unfold mainBlock
  rw [h]
  simp [hs]

/-- When extraction returns `None`, the main block is just the
extraction trace. -/
lemma mainBlock_none (w : String → OpenResult) (args : List String)
    (env : String → Option String) (evs : List Event)
    (h : extract_pdf_text (w pdf_path) = (evs, none)) :
    mainBlock w args env = evs := by
  unfold mainBlock
  rw [h]

/-- When extraction returns the empty string, `if text:` is false and
the main block is just the extraction trace. -/
lemma mainBlock_empty (w : String → OpenResult) (args : List String)
    (env : String → Option String) (evs : List Event)
    (h : extract_pdf_text (w pdf_path) = (evs, some "")) :
    mainBlock w args env = evs := by
  unfold mainBlock
  rw [h]
  simp

/-- A `some` extraction result comes from a successful try body, with
the same events. -/
lemma extract_pdf_text_some (r : OpenResult) (s : String)
    (h : (extract_pdf_text r).2 = some s) :
    (tryBody r).2 = Except.ok s ∧ (extract_pdf_text r).1 = (tryBody r).1 := by
  unfold extract_pdf_text at h ⊢
  cases htb : (tryBody r).2 with
  | ok t => rw [htb] at h; simp at h; simp [htb, h]
  | error e => rw [htb] at h; simp at h

-- sanity checks on the embedding
example : pyJoin "\n\n" [] = "" := rfl
example : pyJoin "\n\n" ["a"] = "a" := rfl
example : pyJoin "\n\n" ["a", "b"] = "a\n\nb" := rfl
example : (extract_pdf_text (OpenResult.exn "boom")).2 = none := rfl
example : (extract_pdf_text (OpenResult.pdf [PageResult.text "a"])).2 = some "a" := rfl
example : (extract_pdf_text (OpenResult.pdf [])).2 = some "" := rfl
example :
    fileWrites (mainBlock (fun _ => OpenResult.pdf [PageResult.text "a"]) []
      (fun _ => none)) = [(outFileName, "a")] := rfl
example :
    fileWrites (mainBlock (fun _ => OpenResult.pdf []) [] (fun _ => none)) = [] := rfl
example : hasSub "out".data "about".data = true := rfl
example : hasSub "output".data "Error extracting PDF: file not found".data = false := rfl

/-- C1 (counterexample): on a valid zero-page PDF extraction raises no
exception and returns the joined text, yet no output file is created,
because Python's `if text:` is false for the empty string. -/
theorem C1_counterexample :
    (extract_pdf_text (OpenResult.pdf [])).2 = some (pyJoin "\n\n" []) ∧
    fileWrites (mainBlock (fun _ => OpenResult.pdf []) [] (fun _ => none)) = [] :=
  ⟨rfl, rfl⟩

/-- C1 (amended): for every valid PDF whose per-page texts join to a
non-empty string, the run performs exactly one file write, to the fixed
output file, whose content is the page texts concatenated in order with
the blank-line separator. -/
theorem C1_output_file_content (w : String → OpenResult) (args : List String)
    (env : String → Option String) (ts : List String)
    (hw : w pdf_path = OpenResult.pdf (ts.map PageResult.text))
    (hne : pyJoin "\n\n" ts ≠ "") :
    fileWrites (mainBlock w args env) = [(outFileName, pyJoin "\n\n" ts)] := by
  have hex : extract_pdf_text (w pdf_path) =
      ((tryBody (w pdf_path)).1, some (pyJoin "\n\n" ts)) := by
    rw [hw]; exact extract_pdf_text_map_text ts
  rw [mainBlock_some w args env _ _ hex hne, fileWrites_append,
    fileWrites_of_out _ (tryBody_events_out _)]
  rfl

/-- C1 (witness): a one-page PDF with text "hello" produces exactly one
write of "hello" to the output file. -/
theorem C1_witness :
    fileWrites (mainBlock (fun _ => OpenResult.pdf [PageResult.text "hello"]) []
      (fun _ => none)) = [(outFileName, pyJoin "\n\n" ["hello"])] :=
  C1_output_file_content _ [] (fun _ => none) ["hello"] rfl (by decide)

/-- C2: whenever the try body raises, the exception is caught (the
function returns `None` rather than propagating), the diagnostic is
printed to stderr, and no output file is created. -/
theorem C2_failure_caught_no_output (w : String → OpenResult)
    (args : List String) (env : String → Option String) (e : String)
    (h : (tryBody (w pdf_path)).2 = Except.error e) :
    (extract_pdf_text (w pdf_path)).2 = none ∧
    Event.err ("Error extracting PDF: " ++ e) ∈ mainBlock w args env ∧
    fileWrites (mainBlock w args env) = [] := by
  have hex := extract_pdf_text_error (w pdf_path) e h
  have hm : mainBlock w args env =
      (tryBody (w pdf_path)).1 ++ [Event.err ("Error extracting PDF: " ++ e)] :=
    mainBlock_none w args env _ hex
  refine ⟨by rw [hex], ?_, ?_⟩
  · rw [hm]
    exact List.mem_append_right _ (List.mem_singleton.mpr rfl)
  · rw [hm, fileWrites_append, fileWrites_of_out _ (tryBody_events_out _)]
    rfl

/-- C2 (witness): a missing file raises at open; the run returns `None`,
prints the diagnostic and writes no file. -/
theorem C2_witness :
    (extract_pdf_text ((fun _ => OpenResult.exn "missing file") pdf_path)).2 = none ∧
    Event.err ("Error extracting PDF: " ++ "missing file") ∈
      mainBlock (fun _ => OpenResult.exn "missing file") [] (fun _ => none) ∧
    fileWrites (mainBlock (fun _ => OpenResult.exn "missing file") []
      (fun _ => none)) = [] :=
  C2_failure_caught_no_output (fun _ => OpenResult.exn "missing file") []
    (fun _ => none) "missing file" rfl

/-- C3 (counterexample): on a failing run the whole trace is the single
stderr line "Error extracting PDF: file not found"; no emitted message
even contains the word "output", so no message states that no output
file was produced. -/
theorem C3_counterexample :
    mainBlock (fun _ => OpenResult.exn "file not found") [] (fun _ => none) =
      [Event.err ("Error extracting PDF: file not found")] ∧
    (messagesOf (mainBlock (fun _ => OpenResult.exn "file not found") []
      (fun _ => none))).all (fun ev => !(mentionsOutput ev)) = true :=
  ⟨rfl, rfl⟩

/-- C3 (amended): on every failing run the error stream carries exactly
the diagnostic "Error extracting PDF: <e>" and no output file is
produced; the program emits no further message reporting the absence of
the output file. -/
theorem C3_diag_is_only_report (w : String → OpenResult) (args : List String)
    (env : String → Option String) (e : String)
    (h : (tryBody (w pdf_path)).2 = Except.error e) :
    stderrOf (mainBlock w args env) = ["Error extracting PDF: " ++ e] ∧
    fileWrites (mainBlock w args env) = [] := by
  have hex := extract_pdf_text_error (w pdf_path) e h
  have hm : mainBlock w args env =
      (tryBody (w pdf_path)).1 ++ [Event.err ("Error extracting PDF: " ++ e)] :=
    mainBlock_none w args env _ hex
  constructor
  · rw [hm, stderrOf_append, stderrOf_of_out _ (tryBody_events_out _)]
    rfl
  · rw [hm, fileWrites_append, fileWrites_of_out _ (tryBody_events_out _)]
    rfl

/-- C3 (witness): a corrupt PDF raising at open yields exactly the one
diagnostic on stderr and no file write. -/
theorem C3_witness :
    stderrOf (mainBlock (fun _ => OpenResult.exn "corrupt") []
      (fun _ => none)) = ["Error extracting PDF: " ++ "corrupt"] ∧
    fileWrites (mainBlock (fun _ => OpenResult.exn "corrupt") []
      (fun _ => none)) = [] :=
  C3_diag_is_only_report _ [] (fun _ => none) "corrupt" rfl

/-- C4: for every input, `extract_pdf_text` returns either the joined
text of all pages (when every page extracts) or `None`; no other result
is possible. -/
theorem C4_result_dichotomy (r : OpenResult) :
    (∃ ts : List String, r = OpenResult.pdf (ts.map PageResult.text) ∧
      (extract_pdf_text r).2 = some (pyJoin "\n\n" ts)) ∨
    (extract_pdf_text r).2 = none := by
  cases r with
  | exn e => exact Or.inr rfl
  | pdf pages =>
      rcases pageLoop_cases pages 1 with ⟨ts, rfl⟩ | ⟨e, he⟩
      · exact Or.inl ⟨ts, rfl, by rw [extract_pdf_text_map_text]⟩
      · right
        have htb : (tryBody (OpenResult.pdf pages)).2 = Except.error e := by
          rw [tryBody_pdf_eq]
          simp [he, Except.map]
        rw [extract_pdf_text_error _ e htb]

/-- C5: in every successful extraction the joined document preserves
page order: page i's text occurs before page i+1's text (they are in
fact adjacent, separated by one blank-line separator). -/
theorem C5_page_order (ts : List String) (i : Nat) (h : i + 1 < ts.length) :
    ∃ a c, (extract_pdf_text (OpenResult.pdf (ts.map PageResult.text))).2 =
      some (a ++ ts.getD i "" ++ "\n\n" ++ ts.getD (i + 1) "" ++ c) := by
  rcases pyJoin_adjacent "\n\n" ts i h with ⟨a, c, heq⟩
  exact ⟨a, c, by rw [extract_pdf_text_map_text, heq]⟩

/-- C5 (witness): in a two-page PDF, page 1's text precedes page 2's. -/
theorem C5_witness :
    ∃ a c, (extract_pdf_text (OpenResult.pdf
        (["p1", "p2"].map PageResult.text))).2 =
      some (a ++ ["p1", "p2"].getD 0 "" ++ "\n\n" ++ ["p1", "p2"].getD 1 "" ++ c) :=
  C5_page_order ["p1", "p2"] 0 (by decide)

/-- C6: in every run that writes the output file, each page's text is
printed to stdout strictly before the file write, and the write is
followed only by the success message. -/
theorem C6_print_before_write (w : String → OpenResult) (args : List String)
    (env : String → Option String) (ts : List String) (i : Nat)
    (hw : w pdf_path = OpenResult.pdf (ts.map PageResult.text))
    (hne : pyJoin "\n\n" ts ≠ "") (hi : i < ts.length) :
    ∃ l₁ l₂, mainBlock w args env =
      l₁ ++ Event.out (ts.getD i "") ::
        (l₂ ++ [Event.write outFileName (pyJoin "\n\n" ts), Event.out successMsg]) := by
  have hex : extract_pdf_text (w pdf_path) =
      ((tryBody (w pdf_path)).1, some (pyJoin "\n\n" ts)) := by
    rw [hw]; exact extract_pdf_text_map_text ts
  have hm := mainBlock_some w args env _ _ hex hne
  rcases pageLoop_split ts 1 i hi with ⟨a, b, heq⟩
  refine ⟨Event.out ("PDF Pages: " ++ toString (ts.map PageResult.text).length ++ "\n") ::
    Event.out eqBar :: a, b, ?_⟩
  rw [hm, hw, tryBody_pdf_eq]
  simp [heq, List.append_assoc]

/-- C6 (witness): in a one-page run the page text is printed before the
file write. -/
theorem C6_witness :
    ∃ l₁ l₂, mainBlock (fun _ => OpenResult.pdf [PageResult.text "a"]) []
        (fun _ => none) =
      l₁ ++ Event.out (["a"].getD 0 "") ::
        (l₂ ++ [Event.write outFileName (pyJoin "\n\n" ["a"]), Event.out successMsg]) :=
  C6_print_before_write _ [] (fun _ => none) ["a"] 0 rfl (by decide) (by decide)

/-- C7: the processed path is the hardcoded constant, and two runs over
the same world agree regardless of command-line arguments and
environment variables. -/
theorem C7_no_config_surface (w w' : String → OpenResult)
    (args args' : List String) (env env' : String → Option String)
    (h : w pdf_path = w' pdf_path) :
    pdf_path = "VISANET- user journey.pdf" ∧
    mainBlock w args env = mainBlock w' args' env' := by
  refine ⟨rfl, ?_⟩
  unfold mainBlock
  rw [h]

/-- C7 (witness): a run with a flag and an environment variable equals
the run with neither. -/
theorem C7_witness :
    pdf_path = "VISANET- user journey.pdf" ∧
    mainBlock (fun _ => OpenResult.exn "e") ["--flag"] (fun _ => some "1") =
      mainBlock (fun _ => OpenResult.exn "e") [] (fun _ => none) :=
  C7_no_config_surface _ _ _ _ _ _ rfl

/-- C8: when extraction succeeds with the empty string, the main block
adds nothing to the extraction trace: no file write, no success
message, and no stderr line at all. -/
theorem C8_empty_text_no_effects (w : String → OpenResult)
    (args : List String) (env : String → Option String)
    (h : (extract_pdf_text (w pdf_path)).2 = some "") :
    mainBlock w args env = (extract_pdf_text (w pdf_path)).1 ∧
    fileWrites (mainBlock w args env) = [] ∧
    stderrOf (mainBlock w args env) = [] := by
  have hpair : extract_pdf_text (w pdf_path) =
      ((extract_pdf_text (w pdf_path)).1, some "") := by rw [← h]
  have hm := mainBlock_empty w args env _ hpair
  rcases extract_pdf_text_some (w pdf_path) "" h with ⟨_, hevs⟩
  refine ⟨hm, ?_, ?_⟩
  · rw [hm, hevs]
    exact fileWrites_of_out _ (tryBody_events_out _)
  · rw [hm, hevs]
    exact stderrOf_of_out _ (tryBody_events_out _)

/-- C8 (witness): a zero-page PDF joins to the empty string; the run
writes no file, adds no message and emits nothing on stderr. -/
theorem C8_witness :
    mainBlock (fun _ => OpenResult.pdf []) [] (fun _ => none) =
      (extract_pdf_text ((fun _ => OpenResult.pdf []) pdf_path)).1 ∧
    fileWrites (mainBlock (fun _ => OpenResult.pdf []) [] (fun _ => none)) = [] ∧
    stderrOf (mainBlock (fun _ => OpenResult.pdf []) [] (fun _ => none)) = [] :=
  C8_empty_text_no_effects (fun _ => OpenResult.pdf []) [] (fun _ => none) rfl

/-- C9: the catch-all handler is total: every exception of the try body
is converted into a normal `None` return with the diagnostic appended,
and every success into a normal `Some` return; the function never
propagates an exception. -/
theorem C9_catch_all_total (r : OpenResult) :
    (∃ e, (tryBody r).2 = Except.error e ∧
      extract_pdf_text r =
        ((tryBody r).1 ++ [Event.err ("Error extracting PDF: " ++ e)], none)) ∨
    (∃ s, (tryBody r).2 = Except.ok s ∧
      extract_pdf_text r = ((tryBody r).1, some s)) := by
  cases htb : (tryBody r).2 with
  | error e => exact Or.inl ⟨e, rfl, extract_pdf_text_error r e htb⟩
  | ok s =>
      refine Or.inr ⟨s, rfl, ?_⟩
      unfold extract_pdf_text
      rw [htb]


/-- C10: join over a singleton is the identity: a one-page PDF extracts
to exactly that page's text, with no separator attached. -/
theorem C10_singleton_identity (t : String) :
    (extract_pdf_text (OpenResult.pdf [PageResult.text t])).2 = some t := by
  have h : (extract_pdf_text (OpenResult.pdf (List.map PageResult.text [t]))).2 =
      some (pyJoin "\n\n" [t]) := by
    rw [extract_pdf_text_map_text]
  exact h
